import Mathlib

/-!
Verification of the synthetic route generator of `src/app.py`
(`calculate_routes`, its helper `haversine`, and
`load_transport_infrastructure`).

Modelling conventions:
* Python floats are modelled as exact real numbers; the route-synthesis
  arithmetic is stated generically over a `LinearOrderedField` with a
  `FloorRing` structure so that it can be evaluated on `ℚ` and
  instantiated at `ℝ` (where the haversine distance lives).
* Python `int(x)` truncates toward zero; it is modelled by `pyInt`.
* Python `round(x)` / `round(x, 1)` round half to even; they are modelled
  by `pyRound` / `pyRound1`.
* Python's `list.sort` is a stable sort; it is modelled by
  `List.insertionSort` with the non-strict comparison on
  `duration_minutes`, which is also stable.
* Python dicts with fixed literal entries are modelled as association
  lists in insertion order (the iteration order of a Python dict).
-/

open Real

/-- Python `int()` applied to a number: truncation toward zero. -/
def pyInt {α : Type} [LinearOrderedField α] [FloorRing α] (x : α) : ℤ :=
  if x < 0 then ⌈x⌉ else ⌊x⌋

/-- Python `round()` to an integer: round half to even. -/
def pyRound {α : Type} [LinearOrderedField α] [FloorRing α] (x : α) : ℤ :=
  if x - ⌊x⌋ < 1 / 2 then ⌊x⌋
  else if 1 / 2 < x - ⌊x⌋ then ⌊x⌋ + 1
  else if ⌊x⌋ % 2 = 0 then ⌊x⌋ else ⌊x⌋ + 1

/-- Python `round(x, 1)`: round to one decimal digit, half to even. -/
def pyRound1 {α : Type} [LinearOrderedField α] [FloorRing α] (x : α) : α :=
  (pyRound (10 * x) : α) / 10

/-- ASCII lower-casing of a character, as `str.lower` acts on the ASCII
place names appearing in the program. -/
def lowerChar (c : Char) : Char :=
  if 'A' ≤ c ∧ c ≤ 'Z' then Char.ofNat (c.toNat + 32) else c

/-- Whether `pat` is a prefix of `s` (on character lists). -/
def isPre : List Char → List Char → Bool
  | [], _ => true
  | _ :: _, [] => false
  | a :: as, b :: bs => a = b && isPre as bs

/-- Whether `pat` occurs contiguously in `s`: Python's `pat in s` on
strings. -/
def hasSub (pat : List Char) : List Char → Bool
  | [] => pat.isEmpty
  | b :: bs => isPre pat (b :: bs) || hasSub pat bs

/-- Case-insensitive substring test: `pat.lower() in s.lower()`. -/
def substrCI (pat s : String) : Bool :=
  hasSub (pat.toList.map lowerChar) (s.toList.map lowerChar)

/-- One entry of a `route_steps` list. -/
structure RouteStep where
  step : ℕ
  description : String
  time : String
deriving DecidableEq

/-- One synthesized route option, as built by `calculate_routes`. -/
structure RouteOption (α : Type) where
  mode : String
  icon : String
  duration_minutes : ℤ
  distance_km : α
  cost : ℤ
  emissions : α
  transfers : ℤ
  congestion_level : α
  departure_frequency : String
  route_steps : List RouteStep

/-- The dictionary returned by `calculate_routes`. -/
structure RouteResult (α : Type) where
  start_location : String
  end_location : String
  city : String
  total_routes : ℕ
  routes : List (RouteOption α)

variable {α : Type} [LinearOrderedField α] [FloorRing α]

/-- The bus route dictionary from `src/app.py` lines 249-266. -/
def busRoute (d : α) : RouteOption α where
  mode := "bus"
  icon := "🚌"
  duration_minutes := pyInt (d * 4)
  distance_km := pyRound1 (d * (13 / 10))
  cost := pyInt (d * 5)
  emissions := pyRound1 (d * (7 / 10))
  transfers := if d > 5 then 1 else 0
  congestion_level := 7 / 10
  departure_frequency := "Every 10-15 minutes"
  route_steps :=
    [⟨1, "Walk to nearest bus stop", "5 min"⟩,
     ⟨2, "Take Bus Route " ++ toString (100 + pyInt d), toString (pyInt (d * 3)) ++ " min"⟩,
     ⟨3, "Walk to destination", "5 min"⟩]

/-- The train route dictionary from `src/app.py` lines 268-287; its second
step mentions the start longitude. -/
def trainRoute (startLon d : α) : RouteOption α where
  mode := "train"
  icon := "🚆"
  duration_minutes := pyInt (d * 2)
  distance_km := pyRound1 (d * (12 / 10))
  cost := pyInt (d * 3)
  emissions := pyRound1 (d * (4 / 10))
  transfers := if d < 10 then 0 else 1
  congestion_level := 8 / 10
  departure_frequency := "Every 15-20 minutes"
  route_steps :=
    [⟨1, "Walk to nearest railway station", "8 min"⟩,
     ⟨2, "Take " ++ (if startLon < 729 / 10 then "Western" else "Central") ++ " Line train",
       toString (pyInt (d * (3 / 2))) ++ " min"⟩,
     ⟨3, "Walk to destination", "10 min"⟩]

/-- The metro route dictionary from `src/app.py` lines 289-308. -/
def metroRoute (d : α) : RouteOption α where
  mode := "metro"
  icon := "🚇"
  duration_minutes := pyInt (d * (3 / 2))
  distance_km := pyRound1 (d * (11 / 10))
  cost := pyInt (d * 4)
  emissions := pyRound1 (d * (2 / 10))
  transfers := if d < 8 then 0 else 1
  congestion_level := 6 / 10
  departure_frequency := "Every 5-8 minutes"
  route_steps :=
    [⟨1, "Walk to nearest metro station", "6 min"⟩,
     ⟨2, "Take Metro Line 1", toString (pyInt (d * (12 / 10))) ++ " min"⟩,
     ⟨3, "Walk to destination", "7 min"⟩]

/-- The walking route dictionary from `src/app.py` lines 310-327. -/
def walkingRoute (start_location end_location : String) (d : α) : RouteOption α where
  mode := "walking"
  icon := "🚶"
  duration_minutes := pyInt (d * 12)
  distance_km := pyRound1 d
  cost := 0
  emissions := 0
  transfers := 0
  congestion_level := 1 / 10
  departure_frequency := "On demand"
  route_steps :=
    [⟨1, "Walk from " ++ start_location ++ " to " ++ end_location,
      toString (pyInt (d * 12)) ++ " min"⟩]

/-- The cycling route dictionary from `src/app.py` lines 329-347. -/
def cyclingRoute (start_location end_location : String) (d : α) : RouteOption α where
  mode := "cycling"
  icon := "🚲"
  duration_minutes := pyInt (d * 4)
  distance_km := pyRound1 (d * (21 / 20))
  cost := if d < 3 then 0 else 20
  emissions := 0
  transfers := 0
  congestion_level := 3 / 10
  departure_frequency := "On demand"
  route_steps :=
    [⟨1, "Pick up bicycle", "3 min"⟩,
     ⟨2, "Cycle from " ++ start_location ++ " to " ++ end_location,
       toString (pyInt (d * 4)) ++ " min"⟩]

/-- The cities for which the metro option is available
(`src/app.py` line 291). -/
def metroCities : List String :=
  ["Mumbai", "Delhi", "Bangalore", "Chennai", "Hyderabad", "Kolkata"]

/-- Comparison used to sort routes (`routes.sort(key=...duration_minutes)`). -/
def byDuration (a b : RouteOption α) : Prop :=
  a.duration_minutes ≤ b.duration_minutes

instance : DecidableRel (byDuration (α := α)) :=
  fun a b => inferInstanceAs (Decidable (a.duration_minutes ≤ b.duration_minutes))

instance : IsTotal (RouteOption α) byDuration :=
  ⟨fun a b => le_total a.duration_minutes b.duration_minutes⟩

instance : IsTrans (RouteOption α) byDuration :=
  ⟨fun _ _ _ h h' => le_trans h h'⟩

/-- The unsorted list of route options appended mode by mode
(`src/app.py` lines 246-347). -/
def routeList (start_location end_location city : String) (modes : List String)
    (startLon d : α) : List (RouteOption α) :=
  (if "bus" ∈ modes then [busRoute d] else [])
    ++ (if "train" ∈ modes then if d > 3 then [trainRoute startLon d] else [] else [])
    ++ (if "metro" ∈ modes then if city ∈ metroCities then [metroRoute d] else [] else [])
    ++ (if "walking" ∈ modes then
          if d < 5 then [walkingRoute start_location end_location d] else [] else [])
    ++ (if "cycling" ∈ modes then
          if d < 10 then [cyclingRoute start_location end_location d] else [] else [])

/-- The route synthesis of `calculate_routes` once the distance `d` (and
the start longitude used in the train step text) are known: build the
per-mode options, sort by duration, and package the result
(`src/app.py` lines 245-358). -/
def generateRoutes (start_location end_location city : String) (modes : List String)
    (startLon d : α) : RouteResult α :=
  let sorted := List.insertionSort byDuration
    (routeList start_location end_location city modes startLon d)
  { start_location := start_location
    end_location := end_location
    city := city
    total_routes := sorted.length
    routes := sorted }

/-- The Mumbai coordinate dictionary (`src/app.py` lines 178-199), in
insertion order. -/
def mumbaiCoordinates : List (String × ℚ × ℚ) :=
  [("CST", 18.9402, 72.8351),
   ("Dadar", 19.0211, 72.8426),
   ("Andheri", 19.1197, 72.8464),
   ("Borivali", 19.2278, 72.8620),
   ("Thane", 19.1943, 72.9627),
   ("Bandra", 19.0596, 72.8295),
   ("Kurla", 19.0703, 72.8810),
   ("Powai", 19.1214, 72.9097),
   ("Ghatkopar", 19.0866, 72.9093),
   ("Worli", 19.0217, 72.8170),
   ("BKC", 19.0654, 72.8695),
   ("Juhu", 19.1075, 72.8263),
   ("Chembur", 19.0534, 72.9002),
   ("Sion", 19.0379, 72.8691),
   ("Versova", 19.1344, 72.8186),
   ("Airport", 19.0896, 72.8656),
   ("Vashi", 19.0759, 72.9963),
   ("Mulund", 19.1763, 72.9572),
   ("Goregaon", 19.1663, 72.8526),
   ("Kandivali", 19.2065, 72.8570)]

/-- The placeholder coordinate dictionary used for every city other than
Mumbai (`src/app.py` lines 203-213). -/
def placeholderCoordinates : List (String × ℚ × ℚ) :=
  [("Central", 20.0, 77.0),
   ("North", 20.1, 77.0),
   ("South", 19.9, 77.0),
   ("East", 20.0, 77.1),
   ("West", 20.0, 76.9),
   ("Airport", 20.05, 77.05),
   ("Station", 20.02, 77.03),
   ("Downtown", 20.01, 77.01),
   ("Suburb", 20.08, 77.08)]

/-- The coordinate dictionary selected for a city
(`src/app.py` lines 176-213). -/
def coordinatesFor (city : String) : List (String × ℚ × ℚ) :=
  if city = "Mumbai" then mumbaiCoordinates else placeholderCoordinates

/-- The matching loop of `src/app.py` lines 219-224: scan the entries in
order and keep the coordinates of the last key whose lower-cased text
occurs in the lower-cased location; `none` when no key matches. -/
def resolveLoc (coords : List (String × ℚ × ℚ)) (loc : String) : Option (ℚ × ℚ) :=
  coords.foldl (fun acc e => if substrCI e.1 loc then some e.2 else acc) none

/-- The value of the first entry (`coordinates.get(list(coordinates.keys())[0])`). -/
def firstVal (coords : List (String × ℚ × ℚ)) : ℚ × ℚ :=
  ((coords.headD ("", 0, 0)).2)

/-- The value of the last entry (`coordinates.get(list(coordinates.keys())[-1])`). -/
def lastVal (coords : List (String × ℚ × ℚ)) : ℚ × ℚ :=
  ((coords.getLastD ("", 0, 0)).2)

/-- Start-location resolution with its fallback to the first entry
(`src/app.py` lines 215-228). -/
def resolveStart (coords : List (String × ℚ × ℚ)) (loc : String) : ℚ × ℚ :=
  (resolveLoc coords loc).getD (firstVal coords)

/-- End-location resolution with its fallback to the last entry
(`src/app.py` lines 215-230). -/
def resolveEnd (coords : List (String × ℚ × ℚ)) (loc : String) : ℚ × ℚ :=
  (resolveLoc coords loc).getD (lastVal coords)

/-- The two-argument arctangent `math.atan2(y, x)` with the C convention,
as used by the haversine computation. -/
noncomputable def atan2 (y x : ℝ) : ℝ :=
  if 0 < x then arctan (y / x)
  else if x < 0 then
    (if 0 ≤ y then arctan (y / x) + π else arctan (y / x) - π)
  else
    (if 0 < y then π / 2 else if y < 0 then -(π / 2) else 0)

/-- Degree-to-radian conversion `math.radians`. -/
noncomputable def radiansOf (x : ℝ) : ℝ := x * π / 180

/-- The haversine great-circle distance of `src/app.py` lines 235-241,
with Earth radius 6371 km. -/
noncomputable def haversine (lat1 lon1 lat2 lon2 : ℝ) : ℝ :=
  let dlat := radiansOf (lat2 - lat1)
  let dlon := radiansOf (lon2 - lon1)
  let a := Real.sin (dlat / 2) ^ 2 +
    Real.cos (radiansOf lat1) * Real.cos (radiansOf lat2) * Real.sin (dlon / 2) ^ 2
  let c := 2 * atan2 (Real.sqrt a) (Real.sqrt (1 - a))
  6371 * c

/-- The default list of transport modes (`src/app.py` line 172). -/
def defaultModes : List String := ["bus", "train", "metro", "walking", "cycling"]

/-- The resolved start coordinates of a query. -/
def startCoords (start_location city : String) : ℚ × ℚ :=
  resolveStart (coordinatesFor city) start_location

/-- The resolved end coordinates of a query. -/
def endCoords (end_location city : String) : ℚ × ℚ :=
  resolveEnd (coordinatesFor city) end_location

/-- The straight-line distance computed for a query
(`src/app.py` line 243). -/
noncomputable def resolvedDistance (start_location end_location city : String) : ℝ :=
  haversine ((startCoords start_location city).1 : ℝ) ((startCoords start_location city).2 : ℝ)
    ((endCoords end_location city).1 : ℝ) ((endCoords end_location city).2 : ℝ)

/-- The function `calculate_routes(start_location, end_location, city,
transport_modes)` of `src/app.py` lines 154-358: default the modes,
resolve coordinates, compute the haversine distance, synthesize the
per-mode options, sort them by duration, and return the result
dictionary. -/
noncomputable def calculate_routes (start_location end_location city : String)
    (transport_modes : Option (List String)) : RouteResult ℝ :=
  generateRoutes start_location end_location city (transport_modes.getD defaultModes)
    ((startCoords start_location city).2 : ℝ)
    (resolvedDistance start_location end_location city)

/-- One station record of the infrastructure tables. -/
structure Station where
  name : String
  lat : ℚ
  lon : ℚ

/-- The infrastructure record for one city. -/
structure Infrastructure where
  railway_stations : List Station
  airports : List Station
  bus_stations : List Station
  metro_stations : List Station

/-- The empty infrastructure record returned for unknown cities
(`src/app.py` lines 146-151). -/
def emptyInfrastructure : Infrastructure :=
  ⟨[], [], [], []⟩

/-- The `city_infrastructure` dictionary of `src/app.py` lines 89-140:
sample data for Mumbai and Delhi only. -/
def city_infrastructure : List (String × Infrastructure) :=
  [("Mumbai",
    { railway_stations :=
        [⟨"Chhatrapati Shivaji Terminus (CST)", 18.9402, 72.8351⟩,
         ⟨"Dadar Railway Station", 19.0211, 72.8426⟩,
         ⟨"Lokmanya Tilak Terminus", 19.0712, 72.8889⟩,
         ⟨"Mumbai Central", 18.9712, 72.8213⟩,
         ⟨"Bandra Terminus", 19.0596, 72.8295⟩]
      airports :=
        [⟨"Chhatrapati Shivaji International Airport", 19.0896, 72.8656⟩]
      bus_stations :=
        [⟨"Mumbai Central Bus Depot", 18.9693, 72.8198⟩,
         ⟨"Dadar Bus Depot", 19.0178, 72.8478⟩,
         ⟨"Borivali Bus Depot", 19.2278, 72.8620⟩,
         ⟨"Thane Bus Depot", 19.1943, 72.9627⟩,
         ⟨"Kurla Bus Depot", 19.0703, 72.8810⟩]
      metro_stations :=
        [⟨"Ghatkopar Metro Station", 19.0866, 72.9093⟩,
         ⟨"Andheri Metro Station", 19.1197, 72.8464⟩,
         ⟨"Versova Metro Station", 19.1344, 72.8186⟩,
         ⟨"Saki Naka Metro Station", 19.0984, 72.8889⟩] }),
   ("Delhi",
    { railway_stations :=
        [⟨"New Delhi Railway Station", 28.6425, 77.2198⟩,
         ⟨"Old Delhi Railway Station", 28.6586, 77.2284⟩,
         ⟨"Hazrat Nizamuddin Railway Station", 28.5877, 77.2518⟩,
         ⟨"Anand Vihar Terminal", 28.6472, 77.3016⟩,
         ⟨"Delhi Sarai Rohilla", 28.6653, 77.1927⟩]
      airports :=
        [⟨"Indira Gandhi International Airport", 28.5561, 77.0998⟩]
      bus_stations :=
        [⟨"ISBT Kashmere Gate", 28.6680, 77.2304⟩,
         ⟨"ISBT Anand Vihar", 28.6462, 77.2821⟩,
         ⟨"ISBT Sarai Kale Khan", 28.5903, 77.2495⟩,
         ⟨"Dhaula Kuan Bus Terminal", 28.5921, 77.1536⟩]
      metro_stations :=
        [⟨"Rajiv Chowk Metro Station", 28.6333, 77.2195⟩,
         ⟨"Central Secretariat Metro Station", 28.6147, 77.2117⟩,
         ⟨"Kashmere Gate Metro Station", 28.6674, 77.2295⟩,
         ⟨"Hauz Khas Metro Station", 28.5432, 77.2044⟩] })]

/-- The loader `load_transport_infrastructure` of `src/app.py`
lines 82-151: the city's record when present, otherwise the empty
record. -/
def load_transport_infrastructure (selected_city : String) : Infrastructure :=
  match city_infrastructure.lookup selected_city with
  | some infra => infra
  | none => emptyInfrastructure

/-! ### Helper lemmas about the route synthesis -/

@[simp] lemma busRoute_mode (d : α) : (busRoute d).mode = "bus" := rfl

@[simp] lemma trainRoute_mode (lon d : α) : (trainRoute lon d).mode = "train" := rfl

@[simp] lemma metroRoute_mode (d : α) : (metroRoute d).mode = "metro" := rfl

@[simp] lemma walkingRoute_mode (s e : String) (d : α) :
    (walkingRoute s e d).mode = "walking" := rfl

@[simp] lemma cyclingRoute_mode (s e : String) (d : α) :
    (cyclingRoute s e d).mode = "cycling" := rfl

lemma generateRoutes_routes_eq (s e c : String) (ms : List String) (lon d : α) :
    (generateRoutes s e c ms lon d).routes =
      List.insertionSort byDuration (routeList s e c ms lon d) := rfl

lemma generateRoutes_total_eq (s e c : String) (ms : List String) (lon d : α) :
    (generateRoutes s e c ms lon d).total_routes =
      (generateRoutes s e c ms lon d).routes.length := rfl

lemma generateRoutes_perm (s e c : String) (ms : List String) (lon d : α) :
    ((generateRoutes s e c ms lon d).routes).Perm (routeList s e c ms lon d) :=
  List.perm_insertionSort _ _

lemma mem_ite_nil {β : Type} {p : Prop} [Decidable p] {l : List β} {a : β} :
    (a ∈ if p then l else []) ↔ p ∧ a ∈ l := by
  split_ifs with h <;> simp [h]

lemma mem_routeList {r : RouteOption α} {s e c : String} {ms : List String} {lon d : α} :
    r ∈ routeList s e c ms lon d ↔
      ("bus" ∈ ms ∧ r = busRoute d) ∨
      ("train" ∈ ms ∧ 3 < d ∧ r = trainRoute lon d) ∨
      ("metro" ∈ ms ∧ c ∈ metroCities ∧ r = metroRoute d) ∨
      ("walking" ∈ ms ∧ d < 5 ∧ r = walkingRoute s e d) ∨
      ("cycling" ∈ ms ∧ d < 10 ∧ r = cyclingRoute s e d) := by
  simp [routeList, mem_ite_nil, and_assoc]

lemma mem_generateRoutes {r : RouteOption α} {s e c : String} {ms : List String} {lon d : α} :
    r ∈ (generateRoutes s e c ms lon d).routes ↔
      ("bus" ∈ ms ∧ r = busRoute d) ∨
      ("train" ∈ ms ∧ 3 < d ∧ r = trainRoute lon d) ∨
      ("metro" ∈ ms ∧ c ∈ metroCities ∧ r = metroRoute d) ∨
      ("walking" ∈ ms ∧ d < 5 ∧ r = walkingRoute s e d) ∨
      ("cycling" ∈ ms ∧ d < 10 ∧ r = cyclingRoute s e d) := by
  rw [(generateRoutes_perm s e c ms lon d).mem_iff, mem_routeList]

lemma calculate_routes_eq (s e city : String) (ms : List String) :
    calculate_routes s e city (some ms) =
      generateRoutes s e city ms ((startCoords s city).2 : ℝ)
        (resolvedDistance s e city) := rfl

/-! ### C2: the returned route list is sorted by duration -/

/-- C2: for every query and every set of requested modes the route list
returned by `calculate_routes` is sorted in non-decreasing order of
`duration_minutes` (`routes.sort(key=...)` in `src/app.py` line 350). -/
theorem calculate_routes_sorted (s e city : String) (tm : Option (List String)) :
    List.Sorted byDuration (calculate_routes s e city tm).routes :=
  List.sorted_insertionSort byDuration _

/-! ### C6: haversine vanishes on the diagonal and is symmetric -/

/-- C6: the haversine distance used by `calculate_routes` is zero from a
point to itself and is symmetric in its two points. -/
theorem haversine_self_and_symm (lat1 lon1 lat2 lon2 : ℝ) :
    haversine lat1 lon1 lat1 lon1 = 0 ∧
    haversine lat1 lon1 lat2 lon2 = haversine lat2 lon2 lat1 lon1 := by
  constructor
  · simp [haversine, radiansOf, atan2, Real.sqrt_one]
  · have key : ∀ x y : ℝ,
        Real.sin (radiansOf (x - y) / 2) ^ 2 = Real.sin (radiansOf (y - x) / 2) ^ 2 := by
      intro x y
      have h : radiansOf (x - y) = -radiansOf (y - x) := by
        unfold radiansOf; ring
      rw [h, neg_div, Real.sin_neg, neg_sq]
    simp only [haversine]
    rw [key lat2 lat1, key lon2 lon1, mul_comm (Real.cos (radiansOf lat1))]

/-! ### C9: determinism of `calculate_routes` -/

/-- C9: `calculate_routes` is deterministic: two invocations with equal
start, end, city and requested-mode arguments return equal results; the
embedding is a pure function of its four arguments (the source reads no
ambient state, performs no I/O and uses no randomness). -/
theorem calculate_routes_deterministic (s1 e1 c1 : String) (m1 : Option (List String))
    (s2 e2 c2 : String) (m2 : Option (List String))
    (hs : s1 = s2) (he : e1 = e2) (hc : c1 = c2) (hm : m1 = m2) :
    calculate_routes s1 e1 c1 m1 = calculate_routes s2 e2 c2 m2 := by
  subst hs; subst he; subst hc; subst hm
  rfl

/-- Witness for C9 at a concrete query. -/
theorem calculate_routes_deterministic_witness :
    calculate_routes "CST" "Dadar" "Mumbai" none =
      calculate_routes "CST" "Dadar" "Mumbai" none :=
  calculate_routes_deterministic _ _ _ _ _ _ _ _ rfl rfl rfl rfl

/-! ### C3: per-mode availability predicates -/

lemma walking_mem_iff (s e c : String) (ms : List String) (lon d : α)
    (h : "walking" ∈ ms) :
    (∃ r ∈ (generateRoutes s e c ms lon d).routes, r.mode = "walking") ↔ d < 5 := by
  constructor
  · rintro ⟨r, hr, hmode⟩
    rw [mem_generateRoutes] at hr
    rcases hr with ⟨-, rfl⟩ | ⟨-, -, rfl⟩ | ⟨-, -, rfl⟩ | ⟨-, hd, rfl⟩ | ⟨-, -, rfl⟩ <;>
      simp_all
  · intro hd
    exact ⟨walkingRoute s e d,
      mem_generateRoutes.mpr (Or.inr (Or.inr (Or.inr (Or.inl ⟨h, hd, rfl⟩)))), rfl⟩

lemma train_mem_iff (s e c : String) (ms : List String) (lon d : α)
    (h : "train" ∈ ms) :
    (∃ r ∈ (generateRoutes s e c ms lon d).routes, r.mode = "train") ↔ 3 < d := by
  constructor
  · rintro ⟨r, hr, hmode⟩
    rw [mem_generateRoutes] at hr
    rcases hr with ⟨-, rfl⟩ | ⟨-, hd, rfl⟩ | ⟨-, -, rfl⟩ | ⟨-, -, rfl⟩ | ⟨-, -, rfl⟩ <;>
      simp_all
  · intro hd
    exact ⟨trainRoute lon d,
      mem_generateRoutes.mpr (Or.inr (Or.inl ⟨h, hd, rfl⟩)), rfl⟩

lemma cycling_mem_iff (s e c : String) (ms : List String) (lon d : α)
    (h : "cycling" ∈ ms) :
    (∃ r ∈ (generateRoutes s e c ms lon d).routes, r.mode = "cycling") ↔ d < 10 := by
  constructor
  · rintro ⟨r, hr, hmode⟩
    rw [mem_generateRoutes] at hr
    rcases hr with ⟨-, rfl⟩ | ⟨-, -, rfl⟩ | ⟨-, -, rfl⟩ | ⟨-, -, rfl⟩ | ⟨-, hd, rfl⟩ <;>
      simp_all
  · intro hd
    exact ⟨cyclingRoute s e d,
      mem_generateRoutes.mpr (Or.inr (Or.inr (Or.inr (Or.inr ⟨h, hd, rfl⟩)))), rfl⟩

lemma metro_mem_iff (s e c : String) (ms : List String) (lon d : α)
    (h : "metro" ∈ ms) :
    (∃ r ∈ (generateRoutes s e c ms lon d).routes, r.mode = "metro") ↔ c ∈ metroCities := by
  constructor
  · rintro ⟨r, hr, hmode⟩
    rw [mem_generateRoutes] at hr
    rcases hr with ⟨-, rfl⟩ | ⟨-, -, rfl⟩ | ⟨-, hc, rfl⟩ | ⟨-, -, rfl⟩ | ⟨-, -, rfl⟩ <;>
      simp_all
  · intro hc
    exact ⟨metroRoute d,
      mem_generateRoutes.mpr (Or.inr (Or.inr (Or.inl ⟨h, hc, rfl⟩))), rfl⟩

/-- C3: for a query whose requested modes include the given mode and
whose resolved distance is `d`, a walking route is returned iff `d < 5`,
a train route iff `d > 3`, a cycling route iff `d < 10`, and a metro
route iff the city is one of the six supported metro cities. -/
theorem mode_availability (s e city : String) (ms : List String) :
    ("walking" ∈ ms →
      ((∃ r ∈ (calculate_routes s e city (some ms)).routes, r.mode = "walking") ↔
        resolvedDistance s e city < 5)) ∧
    ("train" ∈ ms →
      ((∃ r ∈ (calculate_routes s e city (some ms)).routes, r.mode = "train") ↔
        3 < resolvedDistance s e city)) ∧
    ("cycling" ∈ ms →
      ((∃ r ∈ (calculate_routes s e city (some ms)).routes, r.mode = "cycling") ↔
        resolvedDistance s e city < 10)) ∧
    ("metro" ∈ ms →
      ((∃ r ∈ (calculate_routes s e city (some ms)).routes, r.mode = "metro") ↔
        city ∈ metroCities)) := by
  rw [calculate_routes_eq]
  exact ⟨walking_mem_iff s e city ms _ _, train_mem_iff s e city ms _ _,
    cycling_mem_iff s e city ms _ _, metro_mem_iff s e city ms _ _⟩

/-- Witness for C3: in the placeholder geometry of the city `"Pune"`, a
metro route is never returned because `"Pune"` is not a metro city. -/
theorem mode_availability_witness :
    ¬ ∃ r ∈ (calculate_routes "Central" "North" "Pune" (some ["metro"])).routes,
      r.mode = "metro" := by
  have h := (mode_availability "Central" "North" "Pune" ["metro"]).2.2.2 (by decide)
  intro hex
  exact absurd (h.mp hex) (by decide)

/-! ### C7: queries where no requested mode is available -/

/-- C7: when no requested mode passes its availability predicate (which
requires that bus, the always-available mode, is not requested), the
returned dictionary has an empty route list and a zero route count; the
embedding is a total function, so the call returns rather than raises. -/
theorem no_mode_available_empty (s e city : String) (ms : List String)
    (hbus : "bus" ∉ ms)
    (htrain : "train" ∈ ms → resolvedDistance s e city ≤ 3)
    (hmetro : "metro" ∈ ms → city ∉ metroCities)
    (hwalk : "walking" ∈ ms → 5 ≤ resolvedDistance s e city)
    (hcycle : "cycling" ∈ ms → 10 ≤ resolvedDistance s e city) :
    (calculate_routes s e city (some ms)).routes = [] ∧
      (calculate_routes s e city (some ms)).total_routes = 0 := by
  have hempty : routeList s e city ms ((startCoords s city).2 : ℝ)
      (resolvedDistance s e city) = [] := by
    have h1 : (if "bus" ∈ ms then [busRoute (resolvedDistance s e city)] else []) =
        ([] : List (RouteOption ℝ)) := if_neg hbus
    have h2 : (if "train" ∈ ms then
        if resolvedDistance s e city > 3 then
          [trainRoute ((startCoords s city).2 : ℝ) (resolvedDistance s e city)] else []
        else []) = [] := by
      by_cases h : "train" ∈ ms
      · rw [if_pos h, if_neg (not_lt.mpr (htrain h))]
      · rw [if_neg h]
    have h3 : (if "metro" ∈ ms then
        if city ∈ metroCities then [metroRoute (resolvedDistance s e city)] else []
        else []) = ([] : List (RouteOption ℝ)) := by
      by_cases h : "metro" ∈ ms
      · rw [if_pos h, if_neg (hmetro h)]
      · rw [if_neg h]
    have h4 : (if "walking" ∈ ms then
        if resolvedDistance s e city < 5 then [walkingRoute s e (resolvedDistance s e city)]
        else [] else []) = [] := by
      by_cases h : "walking" ∈ ms
      · rw [if_pos h, if_neg (not_lt.mpr (hwalk h))]
      · rw [if_neg h]
    have h5 : (if "cycling" ∈ ms then
        if resolvedDistance s e city < 10 then [cyclingRoute s e (resolvedDistance s e city)]
        else [] else []) = [] := by
      by_cases h : "cycling" ∈ ms
      · rw [if_pos h, if_neg (not_lt.mpr (hcycle h))]
      · rw [if_neg h]
    rw [routeList, h1, h2, h3, h4, h5]
    rfl
  constructor
  · rw [calculate_routes_eq, generateRoutes_routes_eq, hempty]
    rfl
  · rw [calculate_routes_eq, generateRoutes_total_eq, generateRoutes_routes_eq, hempty]
    rfl

/-- Witness for C7: requesting only the metro mode in the non-metro city
`"Pune"` yields an empty route list and a zero count. -/
theorem no_mode_available_empty_witness :
    (calculate_routes "Central" "North" "Pune" (some ["metro"])).routes = [] ∧
      (calculate_routes "Central" "North" "Pune" (some ["metro"])).total_routes = 0 :=
  no_mode_available_empty "Central" "North" "Pune" ["metro"]
    (by decide)
    (fun h => absurd h (by decide))
    (fun _ => by decide)
    (fun h => absurd h (by decide))
    (fun h => absurd h (by decide))

/-! ### C10: bus is unconditional; at most one route per mode -/

lemma routeList_modes_sublist (s e c : String) (ms : List String) (lon d : α) :
    ((routeList s e c ms lon d).map (fun r => r.mode)).Sublist defaultModes := by
  have h1 : ((if "bus" ∈ ms then [busRoute d] else []).map
      (fun r : RouteOption α => r.mode)).Sublist ["bus"] := by
    split_ifs <;> simp
  have h2 : ((if "train" ∈ ms then if d > 3 then [trainRoute lon d] else [] else []).map
      (fun r : RouteOption α => r.mode)).Sublist ["train"] := by
    split_ifs <;> simp
  have h3 : ((if "metro" ∈ ms then if c ∈ metroCities then [metroRoute d] else [] else []).map
      (fun r : RouteOption α => r.mode)).Sublist ["metro"] := by
    split_ifs <;> simp
  have h4 : ((if "walking" ∈ ms then if d < 5 then [walkingRoute s e d] else [] else []).map
      (fun r : RouteOption α => r.mode)).Sublist ["walking"] := by
    split_ifs <;> simp
  have h5 : ((if "cycling" ∈ ms then if d < 10 then [cyclingRoute s e d] else [] else []).map
      (fun r : RouteOption α => r.mode)).Sublist ["cycling"] := by
    split_ifs <;> simp
  rw [routeList]
  simp only [List.map_append]
  exact (((h1.append h2).append h3).append h4).append h5

/-- C10: whenever `"bus"` is among the effective requested modes the
result contains exactly one bus route and hence is non-empty; every mode
contributes at most one route, the route list never has more than five
elements, and `total_routes` equals the length of the route list. -/
theorem bus_unconditional_and_counts (s e city : String) (tm : Option (List String))
    (hbus : "bus" ∈ tm.getD defaultModes) :
    ((calculate_routes s e city tm).routes.countP (fun r => r.mode == "bus") = 1) ∧
    (calculate_routes s e city tm).routes ≠ [] ∧
    (∀ m : String, (calculate_routes s e city tm).routes.countP (fun r => r.mode == m) ≤ 1) ∧
    (calculate_routes s e city tm).routes.length ≤ 5 ∧
    (calculate_routes s e city tm).total_routes = (calculate_routes s e city tm).routes.length := by
  have key : ∀ (ms : List String) (lon d : ℝ), "bus" ∈ ms →
      ((generateRoutes s e city ms lon d).routes.countP (fun r => r.mode == "bus") = 1) ∧
      (generateRoutes s e city ms lon d).routes ≠ [] ∧
      (∀ m : String,
        (generateRoutes s e city ms lon d).routes.countP (fun r => r.mode == m) ≤ 1) ∧
      (generateRoutes s e city ms lon d).routes.length ≤ 5 := by
    intro ms lon d hb
    have hperm := generateRoutes_perm s e city ms lon d
    have hcnt : ∀ m : String,
        (generateRoutes s e city ms lon d).routes.countP (fun r => r.mode == m) =
          ((routeList s e city ms lon d).map (fun r => r.mode)).count m := by
      intro m
      rw [hperm.countP_eq, List.count, List.countP_map]
      rfl
    have hle : ∀ m : String,
        (generateRoutes s e city ms lon d).routes.countP (fun r => r.mode == m) ≤ 1 := by
      intro m
      rw [hcnt m]
      exact le_trans ((routeList_modes_sublist s e city ms lon d).count_le m)
        (List.nodup_iff_count_le_one.mp (by decide) m)
    have hmem : busRoute d ∈ (generateRoutes s e city ms lon d).routes :=
      mem_generateRoutes.mpr (Or.inl ⟨hb, rfl⟩)
    refine ⟨?_, List.ne_nil_of_mem hmem, hle, ?_⟩
    · refine le_antisymm (hle "bus") ?_
      have : 0 < (generateRoutes s e city ms lon d).routes.countP (fun r => r.mode == "bus") :=
        List.countP_pos_iff.mpr ⟨busRoute d, hmem, by simp⟩
      omega
    · have hlen : (generateRoutes s e city ms lon d).routes.length =
          ((routeList s e city ms lon d).map (fun r => r.mode)).length := by
        rw [hperm.length_eq, List.length_map]
      rw [hlen]
      exact (routeList_modes_sublist s e city ms lon d).length_le
  exact
    ⟨(key _ _ _ hbus).1, (key _ _ _ hbus).2.1, (key _ _ _ hbus).2.2.1, (key _ _ _ hbus).2.2.2, rfl⟩


/-- Witness for C10 with the default mode list. -/
theorem bus_unconditional_and_counts_witness :
    ((calculate_routes "CST" "Worli" "Mumbai" none).routes.countP
        (fun r => r.mode == "bus") = 1) ∧
    (calculate_routes "CST" "Worli" "Mumbai" none).routes ≠ [] ∧
    (∀ m : String,
      (calculate_routes "CST" "Worli" "Mumbai" none).routes.countP
        (fun r => r.mode == m) ≤ 1) ∧
    (calculate_routes "CST" "Worli" "Mumbai" none).routes.length ≤ 5 ∧
    (calculate_routes "CST" "Worli" "Mumbai" none).total_routes =
      (calculate_routes "CST" "Worli" "Mumbai" none).routes.length :=
  bus_unconditional_and_counts "CST" "Worli" "Mumbai" none (by decide)

/-! ### C1: the per-mode field formulas -/

/-- Modelled from the spec's formula table (section 4.1): the documented
`duration_min` column, `round(coefficient * d)` with Python rounding. -/
def specRoundedDuration (mode : String) (d : α) : ℤ :=
  if mode = "bus" then pyRound (4 * d)
  else if mode = "train" then pyRound (2 * d)
  else if mode = "metro" then pyRound ((3 / 2) * d)
  else if mode = "walking" then pyRound (12 * d)
  else pyRound (4 * d)

/-- Modelled from the spec's formula table (section 4.1): the documented
`cost` column, `round(coefficient * d)` for bus, train and metro. -/
def specRoundedCost (mode : String) (d : α) : ℤ :=
  if mode = "bus" then pyRound (5 * d)
  else if mode = "train" then pyRound (3 * d)
  else if mode = "metro" then pyRound (4 * d)
  else if mode = "walking" then 0
  else if d < 3 then 0 else 20

/-- The `duration_min` column as amended: the code truncates with
Python `int` instead of rounding. -/
def specDuration (mode : String) (d : α) : ℤ :=
  if mode = "bus" then pyInt (4 * d)
  else if mode = "train" then pyInt (2 * d)
  else if mode = "metro" then pyInt ((3 / 2) * d)
  else if mode = "walking" then pyInt (12 * d)
  else pyInt (4 * d)

/-- The `cost` column as amended: the code truncates with Python `int`
instead of rounding. -/
def specCost (mode : String) (d : α) : ℤ :=
  if mode = "bus" then pyInt (5 * d)
  else if mode = "train" then pyInt (3 * d)
  else if mode = "metro" then pyInt (4 * d)
  else if mode = "walking" then 0
  else if d < 3 then 0 else 20

/-- The `distance_km` column of the spec's formula table. -/
def specDistanceKm (mode : String) (d : α) : α :=
  if mode = "bus" then pyRound1 ((13 / 10) * d)
  else if mode = "train" then pyRound1 ((12 / 10) * d)
  else if mode = "metro" then pyRound1 ((11 / 10) * d)
  else if mode = "walking" then pyRound1 d
  else pyRound1 ((21 / 20) * d)

/-- The `emissions_kg` column of the spec's formula table. -/
def specEmissions (mode : String) (d : α) : α :=
  if mode = "bus" then pyRound1 ((7 / 10) * d)
  else if mode = "train" then pyRound1 ((4 / 10) * d)
  else if mode = "metro" then pyRound1 ((2 / 10) * d)
  else 0

/-- The `transfers` column of the spec's formula table. -/
def specTransfers (mode : String) (d : α) : ℤ :=
  if mode = "bus" then (if d > 5 then 1 else 0)
  else if mode = "train" then (if d < 10 then 0 else 1)
  else if mode = "metro" then (if d < 8 then 0 else 1)
  else 0

/-- The `congestion` column of the spec's formula table. -/
def specCongestion (mode : String) (_d : α) : α :=
  if mode = "bus" then 7 / 10
  else if mode = "train" then 8 / 10
  else if mode = "metro" then 6 / 10
  else if mode = "walking" then 1 / 10
  else 3 / 10

/-- Counterexample to C1 as stated: at distance `d = 2/5` the returned
bus route has `duration_minutes = int(4 * 2/5) = 1`, while the documented
formula `round(4d)` yields `2`. -/
theorem duration_not_rounded_counterexample :
    ((generateRoutes "Central" "North" "Pune" ["bus"] (77 : ℝ) (2 / 5)).routes.map
        (fun r => r.duration_minutes)) = [1] ∧
      specRoundedDuration "bus" ((2 : ℝ) / 5) = 2 ∧ (1 : ℤ) ≠ 2 := by
  have hfloor : ⌊(2 / 5 : ℝ) * 4⌋ = 1 := by
    rw [Int.floor_eq_iff]; norm_num
  have hfloor' : ⌊(4 : ℝ) * (2 / 5)⌋ = 1 := by
    rw [Int.floor_eq_iff]; norm_num
  refine ⟨?_, ?_, by decide⟩
  · simp [generateRoutes, routeList, List.insertionSort, busRoute, pyInt, hfloor]
    norm_num
  · simp only [specRoundedDuration, if_pos rfl, pyRound, hfloor']
    norm_num

/-- C1 as amended: for every distance `d ≥ 0`, every route returned by
the synthesis has its numeric fields given by the documented per-mode
linear formulas, with `duration_minutes` and `cost` truncated by Python
`int` (the amendment) and `distance_km`/`emissions` rounded to one
decimal as documented; `transfers` and `congestion_level` are as
documented. -/
theorem route_fields_match_spec (s e city : String) (ms : List String) (lon d : ℝ)
    (_hd : 0 ≤ d) :
    ∀ r ∈ (generateRoutes s e city ms lon d).routes,
      r.duration_minutes = specDuration r.mode d ∧
      r.distance_km = specDistanceKm r.mode d ∧
      r.cost = specCost r.mode d ∧
      r.emissions = specEmissions r.mode d ∧
      r.transfers = specTransfers r.mode d ∧
      r.congestion_level = specCongestion r.mode d := by
  intro r hr
  rw [mem_generateRoutes] at hr
  rcases hr with ⟨-, rfl⟩ | ⟨-, -, rfl⟩ | ⟨-, -, rfl⟩ | ⟨-, -, rfl⟩ | ⟨-, -, rfl⟩ <;>
    refine ⟨?_, ?_, ?_, ?_, ?_, ?_⟩ <;>
      simp [busRoute, trainRoute, metroRoute, walkingRoute, cyclingRoute,
        specDuration, specDistanceKm, specCost, specEmissions, specTransfers,
        specCongestion, mul_comm]

/-- Witness for C1 (amended) at `d = 2`. -/
theorem route_fields_match_spec_witness :
    (0 : ℝ) ≤ 2 ∧
      ∀ r ∈ (generateRoutes "Central" "North" "Pune" ["bus"] (77 : ℝ) 2).routes,
        r.duration_minutes = specDuration r.mode (2 : ℝ) ∧
        r.distance_km = specDistanceKm r.mode (2 : ℝ) ∧
        r.cost = specCost r.mode (2 : ℝ) ∧
        r.emissions = specEmissions r.mode (2 : ℝ) ∧
        r.transfers = specTransfers r.mode (2 : ℝ) ∧
        r.congestion_level = specCongestion r.mode (2 : ℝ) :=
  ⟨by norm_num, route_fields_match_spec "Central" "North" "Pune" ["bus"] 77 2 (by norm_num)⟩

/-! ### C5: coordinate resolution and its fallbacks -/

lemma foldl_resolve (loc : String) (l : List (String × ℚ × ℚ)) :
    ∀ acc : Option (ℚ × ℚ),
      l.foldl (fun a en => if substrCI en.1 loc then some en.2 else a) acc =
        match l.reverse.find? (fun en => substrCI en.1 loc) with
        | some en => some en.2
        | none => acc := by
  induction l with
  | nil => intro acc; rfl
  | cons x xs ih =>
    intro acc
    rw [List.foldl_cons, ih, List.reverse_cons, List.find?_append]
    cases hfind : xs.reverse.find? (fun en => substrCI en.1 loc) with
    | some en => simp [Option.or]
    | none =>
      by_cases h : substrCI x.1 loc
      · simp [Option.or, List.find?_cons_of_pos, h]
      · simp [Option.or, List.find?_cons_of_neg, h]

/-- C5: each location is resolved by scanning the coordinate mapping for
keys whose lower-cased text occurs in the lower-cased input, the last
matching entry winning; when no key matches, the start falls back to the
mapping's first entry and the end to its last entry. -/
theorem resolution_and_fallbacks (city s e : String) :
    ((coordinatesFor city).reverse.find? (fun en => substrCI en.1 s) = none →
      startCoords s city = firstVal (coordinatesFor city)) ∧
    (∀ en, (coordinatesFor city).reverse.find? (fun en => substrCI en.1 s) = some en →
      startCoords s city = en.2) ∧
    ((coordinatesFor city).reverse.find? (fun en => substrCI en.1 e) = none →
      endCoords e city = lastVal (coordinatesFor city)) ∧
    (∀ en, (coordinatesFor city).reverse.find? (fun en => substrCI en.1 e) = some en →
      endCoords e city = en.2) := by
  have hs := foldl_resolve s (coordinatesFor city) none
  have he := foldl_resolve e (coordinatesFor city) none
  refine ⟨fun h => ?_, fun en h => ?_, fun h => ?_, fun en h => ?_⟩
  · unfold startCoords resolveStart resolveLoc
    rw [hs, h]
    rfl
  · unfold startCoords resolveStart resolveLoc
    rw [hs, h]
    rfl
  · unfold endCoords resolveEnd resolveLoc
    rw [he, h]
    rfl
  · unfold endCoords resolveEnd resolveLoc
    rw [he, h]
    rfl

/-- Witness for C5: in the placeholder mapping no key matches the text
`"zzz"`, so the start falls back to the mapping's first entry and the end
to its last entry. -/
theorem resolution_and_fallbacks_witness :
    startCoords "zzz" "Pune" = firstVal (coordinatesFor "Pune") ∧
      endCoords "zzz" "Pune" = lastVal (coordinatesFor "Pune") := by
  have h := resolution_and_fallbacks "Pune" "zzz" "zzz"
  exact ⟨h.1 (by decide), h.2.2.1 (by decide)⟩

/-! ### C8: unknown cities fall back without raising -/

/-- C8: for a city outside the infrastructure tables (only Mumbai and
Delhi are present), the loader returns the empty record, and
`calculate_routes` with the default modes still returns a non-empty route
list computed from the generic placeholder coordinate mapping. -/
theorem unknown_city_fallback (city s e : String)
    (h1 : city ≠ "Mumbai") (h2 : city ≠ "Delhi") :
    load_transport_infrastructure city = emptyInfrastructure ∧
    coordinatesFor city = placeholderCoordinates ∧
    (calculate_routes s e city none).routes ≠ [] ∧
    0 < (calculate_routes s e city none).total_routes := by
  have hload : load_transport_infrastructure city = emptyInfrastructure := by
    have hb1 : (city == "Mumbai") = false := beq_eq_false_iff_ne.mpr h1
    have hb2 : (city == "Delhi") = false := beq_eq_false_iff_ne.mpr h2
    unfold load_transport_infrastructure city_infrastructure
    simp [List.lookup, hb1, hb2]
  have hmem : busRoute (resolvedDistance s e city) ∈ (calculate_routes s e city none).routes :=
    mem_generateRoutes.mpr (Or.inl ⟨by decide, rfl⟩)
  have hne : (calculate_routes s e city none).routes ≠ [] := List.ne_nil_of_mem hmem
  refine ⟨hload, if_neg h1, hne, ?_⟩
  have : (calculate_routes s e city none).total_routes =
      (calculate_routes s e city none).routes.length := rfl
  rw [this]
  exact List.length_pos.mpr hne

/-- Witness for C8 at the city `"Pune"`. -/
theorem unknown_city_fallback_witness :
    load_transport_infrastructure "Pune" = emptyInfrastructure ∧
    coordinatesFor "Pune" = placeholderCoordinates ∧
    (calculate_routes "a" "b" "Pune" none).routes ≠ [] ∧
    0 < (calculate_routes "a" "b" "Pune" none).total_routes :=
  unknown_city_fallback "Pune" "a" "b" (by decide) (by decide)

/-! ### C4: the Mumbai CST to Dadar example -/

set_option maxHeartbeats 1000000 in
lemma haversine_cst_dadar_bounds :
    9 ≤ haversine 18.9402 72.8351 19.0211 72.8426 ∧
      haversine 18.9402 72.8351 19.0211 72.8426 ≤ 9.2 := by
  have hπl : (3.141592 : ℝ) < π := pi_gt_d6
  have hπu : π < 3.141593 := pi_lt_d6
  simp only [haversine, radiansOf]
  have hsub1 : (19.0211 : ℝ) - 18.9402 = 0.0809 := by norm_num
  have hsub2 : (72.8426 : ℝ) - 72.8351 = 0.0075 := by norm_num
  rw [hsub1, hsub2]
  set u : ℝ := 0.0809 * π / 180 / 2 with hu_def
  set v : ℝ := 0.0075 * π / 180 / 2 with hv_def
  set a1 : ℝ := 18.9402 * π / 180 with ha1_def
  set a2 : ℝ := 19.0211 * π / 180 with ha2_def
  set A : ℝ := Real.sin u ^ 2 + Real.cos a1 * Real.cos a2 * Real.sin v ^ 2 with hA_def
  -- bounds on the angles
  have hu1 : (0.00070598 : ℝ) < u := by rw [hu_def]; linarith
  have hu2 : u < 0.00070599 := by rw [hu_def]; linarith
  have hupos : (0 : ℝ) < u := by linarith
  have hv1 : (0.0000654498 : ℝ) < v := by rw [hv_def]; linarith
  have hv2 : v < 0.0000654499 := by rw [hv_def]; linarith
  have hvpos : (0 : ℝ) < v := by linarith
  have ha1u : a1 < 0.330569 := by rw [ha1_def]; linarith
  have ha1pos : (0 : ℝ) < a1 := by rw [ha1_def]; linarith
  have ha2u : a2 < 0.331981 := by rw [ha2_def]; linarith
  have ha2pos : (0 : ℝ) < a2 := by rw [ha2_def]; linarith
  -- bounds on the sines
  have hsu1 : (0.00070597 : ℝ) < Real.sin u := by
    have h := Real.sin_gt_sub_cube hupos (by linarith : u ≤ 1)
    have hcube : u ^ 3 < (0.00070599 : ℝ) ^ 3 :=
      pow_lt_pow_left₀ hu2 hupos.le (by norm_num)
    have hval : ((0.00070599 : ℝ)) ^ 3 < 0.000000000352 := by norm_num
    linarith
  have hsu2 : Real.sin u < 0.00070599 := lt_trans (Real.sin_lt hupos) hu2
  have hsupos : (0 : ℝ) < Real.sin u := by linarith
  have hsv1 : (0.0000654497 : ℝ) < Real.sin v := by
    have h := Real.sin_gt_sub_cube hvpos (by linarith : v ≤ 1)
    have hcube : v ^ 3 < (0.0000654499 : ℝ) ^ 3 :=
      pow_lt_pow_left₀ hv2 hvpos.le (by norm_num)
    have hval : ((0.0000654499 : ℝ)) ^ 3 < 0.00000000000029 := by norm_num
    linarith
  have hsv2 : Real.sin v < 0.0000654499 := lt_trans (Real.sin_lt hvpos) hv2
  have hsvpos : (0 : ℝ) < Real.sin v := by linarith
  -- bounds on the squares of the sines
  have hsu_sq1 : (0.0000004983936409 : ℝ) < Real.sin u ^ 2 := by
    have h := pow_lt_pow_left₀ hsu1 (by norm_num : (0:ℝ) ≤ 0.00070597) (two_ne_zero)
    have : ((0.00070597 : ℝ)) ^ 2 = 0.0000004983936409 := by norm_num
    linarith
  have hsu_sq2 : Real.sin u ^ 2 < 0.0000004984218801 := by
    have h := pow_lt_pow_left₀ hsu2 hsupos.le (two_ne_zero)
    have : ((0.00070599 : ℝ)) ^ 2 = 0.0000004984218801 := by norm_num
    linarith
  have hsv_sq1 : (0.00000000428366 : ℝ) < Real.sin v ^ 2 := by
    have h := pow_lt_pow_left₀ hsv1 (by norm_num : (0:ℝ) ≤ 0.0000654497) (two_ne_zero)
    have : ((0.0000654497 : ℝ)) ^ 2 = 0.00000000428366323009 := by norm_num
    linarith
  have hsv_sq2 : Real.sin v ^ 2 < 0.0000000042837 := by
    have h := pow_lt_pow_left₀ hsv2 hsvpos.le (two_ne_zero)
    have : ((0.0000654499 : ℝ)) ^ 2 = 0.00000000428368941001 := by norm_num
    linarith
  -- bounds on the cosines
  have hc1 : (0.9453 : ℝ) < Real.cos a1 := by
    have h := Real.one_sub_sq_div_two_le_cos (x := a1)
    have hsq : a1 ^ 2 < (0.330569 : ℝ) ^ 2 := pow_lt_pow_left₀ ha1u ha1pos.le (two_ne_zero)
    have : ((0.330569 : ℝ)) ^ 2 = 0.109275863761 := by norm_num
    linarith
  have hc2 : (0.9448 : ℝ) < Real.cos a2 := by
    have h := Real.one_sub_sq_div_two_le_cos (x := a2)
    have hsq : a2 ^ 2 < (0.331981 : ℝ) ^ 2 := pow_lt_pow_left₀ ha2u ha2pos.le (two_ne_zero)
    have : ((0.331981 : ℝ)) ^ 2 = 0.110211384361 := by norm_num
    linarith
  have hc1u : Real.cos a1 ≤ 1 := Real.cos_le_one a1
  have hc2u : Real.cos a2 ≤ 1 := Real.cos_le_one a2
  have hprod1 : (0.89311944 : ℝ) < Real.cos a1 * Real.cos a2 := by
    have h := mul_lt_mul' hc1.le hc2 (by norm_num) (by linarith)
    have : ((0.9453 : ℝ)) * 0.9448 = 0.89311944 := by norm_num
    linarith
  have hprod2 : Real.cos a1 * Real.cos a2 ≤ 1 := by nlinarith
  -- bounds on A
  have hterm1 : (0.0000000038257 : ℝ) < Real.cos a1 * Real.cos a2 * Real.sin v ^ 2 := by
    have h := mul_lt_mul' hprod1.le hsv_sq1 (by norm_num) (by linarith)
    have : ((0.89311944 : ℝ)) * 0.00000000428366 = 0.0000000038258200203504 := by norm_num
    linarith
  have hterm2 : Real.cos a1 * Real.cos a2 * Real.sin v ^ 2 ≤ Real.sin v ^ 2 :=
    mul_le_of_le_one_left (sq_nonneg _) hprod2
  have hA1 : (0.000000502218 : ℝ) < A := by rw [hA_def]; linarith
  have hA2 : A < 0.00000050271 := by rw [hA_def]; linarith
  have hApos : (0 : ℝ) < A := by linarith
  -- square roots
  have hL : (0.000708 : ℝ) < Real.sqrt A := by
    refine (Real.lt_sqrt (by norm_num)).mpr ?_
    have : ((0.000708 : ℝ)) ^ 2 = 0.000000501264 := by norm_num
    linarith
  have hU : Real.sqrt A < 0.00070911 := by
    refine (Real.sqrt_lt' (by norm_num)).mpr ?_
    have : ((0.00070911 : ℝ)) ^ 2 = 0.0000005028369921 := by norm_num
    linarith
  have hsqA0 := Real.sqrt_nonneg A
  have hB : (0.999999 : ℝ) < Real.sqrt (1 - A) := by
    refine (Real.lt_sqrt (by norm_num)).mpr ?_
    have : ((0.999999 : ℝ)) ^ 2 = 0.999998000001 := by norm_num
    linarith
  have hBu : Real.sqrt (1 - A) ≤ 1 := Real.sqrt_le_one.mpr (by linarith)
  have hBpos : (0 : ℝ) < Real.sqrt (1 - A) := by linarith
  -- the quotient t
  set t : ℝ := Real.sqrt A / Real.sqrt (1 - A) with ht_def
  have ht1 : (0.000708 : ℝ) < t := by
    have hle : Real.sqrt A ≤ t := by
      rw [ht_def, le_div_iff₀ hBpos]
      exact mul_le_of_le_one_right hsqA0 hBu
    linarith
  have ht2 : t < 0.00070912 := by
    rw [ht_def, div_lt_iff₀ hBpos]
    linarith
  have htpos : (0 : ℝ) < t := by linarith
  -- atan2 reduces to arctan
  have hform : atan2 (Real.sqrt A) (Real.sqrt (1 - A)) = arctan t := by
    rw [atan2, if_pos hBpos, ht_def]
  rw [hform]
  -- upper bound on arctan t
  have harct_ub : arctan t < t := by
    have h2 : (0 : ℝ) < arctan t := by
      have h := Real.arctan_strictMono htpos
      rwa [Real.arctan_zero] at h
    have h3 := Real.lt_tan h2 (Real.arctan_lt_pi_div_two t)
    rwa [Real.tan_arctan] at h3
  -- lower bound on arctan t via the target angle w = 9/12742
  have hwpos : (0 : ℝ) < 9 / 12742 := by norm_num
  have hcw : (0.999999 : ℝ) < Real.cos (9 / 12742) := by
    have h := Real.one_sub_sq_div_two_le_cos (x := (9 / 12742 : ℝ))
    have : ((9 / 12742 : ℝ)) ^ 2 / 2 < 0.0000003 := by norm_num
    linarith
  have htanw : Real.tan (9 / 12742) < 0.000708 := by
    rw [Real.tan_eq_sin_div_cos, div_lt_iff₀ (by linarith)]
    have hsinw : Real.sin (9 / 12742) < 9 / 12742 := Real.sin_lt hwpos
    have : (9 / 12742 : ℝ) < 0.00070633 := by norm_num
    linarith
  have harct_lb : (9 / 12742 : ℝ) ≤ arctan t := by
    have h1 : Real.tan (9 / 12742) < t := by linarith
    have h2 : arctan (Real.tan (9 / 12742)) < arctan t := Real.arctan_strictMono h1
    have h3 : arctan (Real.tan (9 / 12742)) = (9 / 12742 : ℝ) := by
      refine Real.arctan_tan (by linarith) (by linarith)
    linarith [h3 ▸ h2]
  constructor
  · linarith
  · linarith

lemma cst_dadar_distance_eq :
    resolvedDistance "CST" "Dadar" "Mumbai" = haversine 18.9402 72.8351 19.0211 72.8426 := by
  have h1 : startCoords "CST" "Mumbai" = (18.9402, 72.8351) := rfl
  have h2 : endCoords "Dadar" "Mumbai" = (19.0211, 72.8426) := rfl
  unfold resolvedDistance
  rw [h1, h2]
  norm_num

lemma cst_dadar_distance_mem :
    9 ≤ resolvedDistance "CST" "Dadar" "Mumbai" ∧
      resolvedDistance "CST" "Dadar" "Mumbai" ≤ 9.2 := by
  rw [cst_dadar_distance_eq]
  exact haversine_cst_dadar_bounds

lemma cst_dadar_routes_eval :
    (calculate_routes "CST" "Dadar" "Mumbai"
        (some ["bus", "train", "metro", "walking", "cycling"])).routes.map
      (fun r => (r.mode, r.duration_minutes)) =
      [("metro", 13), ("train", 18), ("bus", 36), ("cycling", 36)] := by
  obtain ⟨hd1, hd2⟩ := cst_dadar_distance_mem
  rw [calculate_routes_eq, generateRoutes_routes_eq]
  set lon : ℝ := ((startCoords "CST" "Mumbai").2 : ℝ) with hlon_def
  set d : ℝ := resolvedDistance "CST" "Dadar" "Mumbai" with hd_def
  have hf4 : pyInt (d * 4) = 36 := by
    rw [pyInt, if_neg (not_lt.mpr (by linarith : (0 : ℝ) ≤ d * 4)), Int.floor_eq_iff]
    refine ⟨by push_cast; linarith, by push_cast; linarith⟩
  have hf2 : pyInt (d * 2) = 18 := by
    rw [pyInt, if_neg (not_lt.mpr (by linarith : (0 : ℝ) ≤ d * 2)), Int.floor_eq_iff]
    refine ⟨by push_cast; linarith, by push_cast; linarith⟩
  have hf15 : pyInt (d * (3 / 2)) = 13 := by
    rw [pyInt, if_neg (not_lt.mpr (by linarith : (0 : ℝ) ≤ d * (3 / 2))), Int.floor_eq_iff]
    refine ⟨by push_cast; linarith, by push_cast; linarith⟩
  have hroutes : routeList "CST" "Dadar" "Mumbai" ["bus", "train", "metro", "walking", "cycling"]
      lon d = [busRoute d, trainRoute lon d, metroRoute d, cyclingRoute "CST" "Dadar" d] := by
    rw [routeList]
    rw [if_pos (show ("bus" : String) ∈ ["bus", "train", "metro", "walking", "cycling"] by decide)]
    rw [if_pos (show ("train" : String) ∈ ["bus", "train", "metro", "walking", "cycling"] by decide)]
    rw [if_pos (show (3 : ℝ) < d by linarith)]
    rw [if_pos (show ("metro" : String) ∈ ["bus", "train", "metro", "walking", "cycling"] by decide)]
    rw [if_pos (show ("Mumbai" : String) ∈ metroCities by decide)]
    rw [if_pos (show ("walking" : String) ∈ ["bus", "train", "metro", "walking", "cycling"] by decide)]
    rw [if_neg (not_lt.mpr (show (5 : ℝ) ≤ d by linarith))]
    rw [if_pos (show ("cycling" : String) ∈ ["bus", "train", "metro", "walking", "cycling"] by decide)]
    rw [if_pos (show d < 10 by linarith)]
    rfl
  rw [hroutes]
  have hbdur : (busRoute d).duration_minutes = 36 := hf4
  have htdur : (trainRoute lon d).duration_minutes = 18 := hf2
  have hmdur : (metroRoute d).duration_minutes = 13 := hf15
  have hcdur : (cyclingRoute "CST" "Dadar" d).duration_minutes = 36 := hf4
  simp only [List.insertionSort, List.orderedInsert, byDuration, hbdur, htdur, hmdur, hcdur]
  norm_num [List.map_cons, busRoute_mode, trainRoute_mode, metroRoute_mode, cyclingRoute_mode,
    hbdur, htdur, hmdur, hcdur]

/-- Counterexample to C4 as stated: for the Mumbai query from "CST" to
"Dadar" with all five modes requested, the returned mode list contains
"cycling" — the distance is about 9.03 km, which is below the cycling
cutoff of 10 km — so the claim's assertion that the cycling route is
absent is false on the code. -/
theorem cst_dadar_cycling_present :
    (calculate_routes "CST" "Dadar" "Mumbai"
        (some ["bus", "train", "metro", "walking", "cycling"])).routes.map
      (fun r => r.mode) = ["metro", "train", "bus", "cycling"] := by
  have h := cst_dadar_routes_eval
  have hmap : (calculate_routes "CST" "Dadar" "Mumbai"
      (some ["bus", "train", "metro", "walking", "cycling"])).routes.map
        (fun r => r.mode) =
      ((calculate_routes "CST" "Dadar" "Mumbai"
        (some ["bus", "train", "metro", "walking", "cycling"])).routes.map
        (fun r => (r.mode, r.duration_minutes))).map Prod.fst := by
    rw [List.map_map]
    rfl
  rw [hmap, h]
  rfl

/-- C4 as amended: for the Mumbai query from "CST" to "Dadar" with all
five modes requested, the haversine distance lies in [9.0, 9.2] km, and
the sorted route list is metro (13 min, within a minute of the claimed
about-14; `int` truncates 1.5 x the distance), train (18 min), bus
(36 min) and cycling (36 min, present because the distance is below
10 km); walking is absent and the list begins with the metro route. -/
theorem mumbai_cst_dadar_example :
    (9 ≤ resolvedDistance "CST" "Dadar" "Mumbai" ∧
      resolvedDistance "CST" "Dadar" "Mumbai" ≤ 9.2) ∧
    (calculate_routes "CST" "Dadar" "Mumbai"
        (some ["bus", "train", "metro", "walking", "cycling"])).routes.map
      (fun r => (r.mode, r.duration_minutes)) =
      [("metro", 13), ("train", 18), ("bus", 36), ("cycling", 36)] :=
  ⟨cst_dadar_distance_mem, cst_dadar_routes_eval⟩
